import Mathlib

/-!
Verification of the RA8875 display-driver core (adafruit_ra8875), shallowly
embedded from `adafruit_ra8875/ra8875.py`, `adafruit_ra8875/registers.py` and
`adafruit_ra8875/bmp.py`.

The SPI bus is modelled as a trace of framed events: a command-select byte,
a data-write byte, or a data-read returning a byte.  Device responses are
an environment `env : Nat → Nat`; every read takes `env reg % 256` since
`_read_data` unpacks exactly one byte (`struct.unpack ">B"`).
-/

namespace RA8875

/-- Framed SPI bus events.  `cmdWrite c` stands for the CMDWR prefix byte
followed by the register byte `c`; `dataWrite d` for the DATWR prefix followed
by the payload byte `d`; `dataRead v` for the DATRD prefix followed by reading
the byte `v` from the device. -/
inductive BusEvent where
  | cmdWrite (c : Nat)
  | dataWrite (d : Nat)
  | dataRead (v : Nat)
deriving DecidableEq, Repr

/-! Register constants, from `adafruit_ra8875/registers.py`. -/

def PWRR : Nat := 0x01
def PWRR_DISPON : Nat := 0x80
def PWRR_DISPOFF : Nat := 0x00
def PWRR_NORMAL : Nat := 0x00
def MRWC : Nat := 0x02
def GPIOX : Nat := 0xC7
def PLLC1 : Nat := 0x88
def PLLC1_PLLDIV1 : Nat := 0x00
def PLLC2 : Nat := 0x89
def PLLC2_DIV4 : Nat := 0x02
def SYSR : Nat := 0x10
def SYSR_16BPP : Nat := 0x0C
def SYSR_MCU8 : Nat := 0x00
def PCSR : Nat := 0x04
def PCSR_PDATL : Nat := 0x80
def PCSR_2CLK : Nat := 0x01
def PCSR_4CLK : Nat := 0x02
def HDWR : Nat := 0x14
def HNDFTR : Nat := 0x15
def HNDFTR_DE_HIGH : Nat := 0x00
def HNDR : Nat := 0x16
def HSTR : Nat := 0x17
def HPWR : Nat := 0x18
def HPWR_LOW : Nat := 0x00
def VDHR0 : Nat := 0x19
def VNDR0 : Nat := 0x1B
def VSTR0 : Nat := 0x1D
def VPWR : Nat := 0x1F
def VPWR_LOW : Nat := 0x00
def FNCR0 : Nat := 0x21
def FNCR1 : Nat := 0x22
def HSAW0 : Nat := 0x30
def VSAW0 : Nat := 0x32
def HEAW0 : Nat := 0x34
def VEAW0 : Nat := 0x36
def MCLR : Nat := 0x8E
def MCLR_START : Nat := 0x80
def MCLR_FULL : Nat := 0x00
def DCR : Nat := 0x90
def DCR_LNSQTR_STATUS : Nat := 0x80
def MWCR0 : Nat := 0x40
def MWCR0_TXTMODE : Nat := 0x80
def P1CR : Nat := 0x8A
def P1CR_ENABLE : Nat := 0x80
def P1DCR : Nat := 0x8B
def PWM_CLK_DIV1024 : Nat := 0x0A
def TPCR0 : Nat := 0x70
def TPCR0_ENABLE : Nat := 0x80
def TPCR0_DISABLE : Nat := 0x00
def TPCR0_WAIT_4096CLK : Nat := 0x30
def TPCR0_WAKEENABLE : Nat := 0x08
def TPCR0_ADCCLK_DIV4 : Nat := 0x02
def TPCR0_ADCCLK_DIV16 : Nat := 0x04
def TPCR1 : Nat := 0x71
def TPCR1_AUTO : Nat := 0x00
def TPCR1_DEBOUNCE : Nat := 0x04
def TPXH : Nat := 0x72
def TPYH : Nat := 0x73
def TPXYL : Nat := 0x74
def INTC1 : Nat := 0xF0
def INTC1_TP : Nat := 0x04
def INTC2 : Nat := 0xF1
def INTC2_TP : Nat := 0x04

/-! Register-protocol primitives, from `RA8875_Device` in `ra8875.py`.
`_write_cmd` sends `bytearray([cmd & 0xFF])`, `_write_data` (non-raw) sends
`bytearray([data & 0xFF])`; `& 0xFF` on a nonnegative int is `% 256`. -/

/-- Trace of `_write_cmd(cmd)`: command-select framed byte, masked to 8 bits. -/
def write_cmd (cmd : Nat) : List BusEvent :=
  [BusEvent.cmdWrite (cmd % 256)]

/-- Trace of a non-raw `_write_data(data)`: data-write framed byte, masked to
8 bits. -/
def write_data (data : Nat) : List BusEvent :=
  [BusEvent.dataWrite (data % 256)]

/-- Trace of `_write_reg(cmd, data)`: command select then data write. -/
def write_reg (cmd data : Nat) : List BusEvent :=
  write_cmd cmd ++ write_data data

/-- Trace of `_write_reg16(cmd, data)`: command select `cmd`, data write of
`data`, command select `cmd + 1`, data write of `data >> 8` (each data byte
masked to 8 bits by `_write_data`). -/
def write_reg16 (cmd data : Nat) : List BusEvent :=
  write_cmd cmd ++ write_data data ++ write_cmd (cmd + 1) ++ write_data (data >>> 8)

/-- Value returned by `_read_data` after selecting register `c`: the device
response, one byte (`struct.unpack ">B"`). -/
def read_byte (env : Nat → Nat) (c : Nat) : Nat :=
  env c % 256

/-- Value and trace of `_read_reg(cmd)`: command select then one data read. -/
def read_reg (env : Nat → Nat) (c : Nat) : Nat × List BusEvent :=
  (read_byte env c, [BusEvent.cmdWrite (c % 256), BusEvent.dataRead (read_byte env c)])

/-- Chip mode as cached by the handle: the Python code stores `None`, `"gfx"`
or `"txt"` in `self._mode`. -/
inductive Mode where
  | unknown
  | gfx
  | txt
deriving DecidableEq, Repr

/-- Host-side device handle state: the fields of `RA8875_Device` the core
mutates.  `tpin = some v` models a configured touch-interrupt pin currently
reading logic level `v`; `adc_clk = none` models the `_adc_clk` attribute
never having been assigned (attribute access then raises `AttributeError`). -/
structure DevState where
  width : Nat
  height : Nat
  vert_offset : Nat
  mode : Mode
  tpin : Option Bool
  adc_clk : Option Nat
deriving DecidableEq, Repr

/-- Constructor `RA8875_Device.__init__` (state effects): remaps an advertised
480x80 panel to height 82, starts with unknown mode, no touch pin and zero
vertical offset, then reads the chip identification register 0; if it reads
0x75 the constructor returns early, leaving `_adc_clk` unassigned, otherwise
it assigns `TPCR0_ADCCLK_DIV16`. -/
def device_ctor (env : Nat → Nat) (w h : Nat) : DevState :=
  { width := w
    height := if w = 480 ∧ h = 80 then 82 else h
    vert_offset := 0
    mode := Mode.unknown
    tpin := none
    adc_clk := if read_byte env 0 = 0x75 then none else some TPCR0_ADCCLK_DIV16 }

/-- Method `_gfx_mode`: no bus access at all if the cached mode is already
`"gfx"`; otherwise read MWCR0 and write it back with the text-mode bit
cleared (Python `v & ~MWCR0_TXTMODE` on the byte `v` is `v &&& 0x7F`), then
cache `"gfx"`. -/
def gfx_mode (env : Nat → Nat) (s : DevState) : DevState × List BusEvent :=
  if s.mode = Mode.gfx then (s, [])
  else
    ({ s with mode := Mode.gfx },
      (read_reg env MWCR0).2 ++ write_data ((read_reg env MWCR0).1 &&& 0x7F))

/-- Method `_txt_mode`: no bus access at all if the cached mode is already
`"txt"`; otherwise set the text-mode bit in MWCR0, clear bits 7 and 5 of
FNCR0 (Python `v & ~((1 << 7) | (1 << 5))` on the byte `v` is `v &&& 0x5F`),
then cache `"txt"`. -/
def txt_mode (env : Nat → Nat) (s : DevState) : DevState × List BusEvent :=
  if s.mode = Mode.txt then (s, [])
  else
    ({ s with mode := Mode.txt },
      (read_reg env MWCR0).2 ++ write_data ((read_reg env MWCR0).1 ||| MWCR0_TXTMODE)
        ++ (read_reg env FNCR0).2 ++ write_data ((read_reg env FNCR0).1 &&& 0x5F))

/-- Method `touched`: if an interrupt pin is configured, first force graphics
mode ("Hack that seems to work"), then a pin reading high short-circuits to
`False`; otherwise (and when no pin is configured, with no mode change at
all) the touch-interrupt bit of INTC2 is read.  The Python code returns the
raw int `istouched`; the Bool here is its truthiness. -/
def touched (env : Nat → Nat) (s : DevState) : Bool × DevState × List BusEvent :=
  match s.tpin with
  | some pv =>
    let s1 := (gfx_mode env s).1
    let tr1 := (gfx_mode env s).2
    if pv then (false, s1, tr1)
    else
      (((read_reg env INTC2).1 &&& INTC2_TP) != 0, s1, tr1 ++ (read_reg env INTC2).2)
  | none =>
    (((read_reg env INTC2).1 &&& INTC2_TP) != 0, s, (read_reg env INTC2).2)

/-- Method `touch_read`: read TPXH, TPYH and the shared low register TPXYL,
reconstruct `x = (xh << 2) | (t & 0x03)` and `y = (yh << 2) | ((t >> 2) & 0x03)`,
then write the touch-interrupt bit to INTC2 to clear the latched flag. -/
def touch_read (env : Nat → Nat) : (Nat × Nat) × List BusEvent :=
  let tx := (read_reg env TPXH).1
  let ty := (read_reg env TPYH).1
  let tmp := (read_reg env TPXYL).1
  (((tx <<< 2) ||| (tmp &&& 0x03), (ty <<< 2) ||| ((tmp >>> 2) &&& 0x03)),
    (read_reg env TPXH).2 ++ (read_reg env TPYH).2 ++ (read_reg env TPXYL).2
      ++ write_reg INTC2 INTC2_TP)

/-- Method `touch_enable`: enabling writes TPCR0 (enable, wait, wake and the
cached `_adc_clk` divider) and TPCR1, then sets the INTC1 touch bit; the
TPCR0 value mentions `self._adc_clk`, so if that attribute was never assigned
the call fails with `AttributeError` before any byte reaches the bus
(arguments are evaluated before `_write_reg` is entered).  Disabling clears
the INTC1 touch bit (Python `v & ~INTC1_TP` on the byte `v` is `v &&& 0xFB`)
and writes TPCR0 disable. -/
def touch_enable (env : Nat → Nat) (touch_on : Bool) (s : DevState) :
    Except Unit (List BusEvent) :=
  if touch_on then
    match s.adc_clk with
    | none => Except.error ()
    | some a =>
      Except.ok (write_reg TPCR0 (TPCR0_ENABLE ||| TPCR0_WAIT_4096CLK |||
          TPCR0_WAKEENABLE ||| a)
        ++ write_reg TPCR1 (TPCR1_AUTO ||| TPCR1_DEBOUNCE)
        ++ (read_reg env INTC1).2 ++ write_data ((read_reg env INTC1).1 ||| INTC1_TP))
  else
    Except.ok ((read_reg env INTC1).2 ++ write_data ((read_reg env INTC1).1 &&& 0xFB)
      ++ write_reg TPCR0 TPCR0_DISABLE)

/-- Register writes issued by `init` after the geometry profile has been
resolved: PLL programming (`pllinit`), system configuration and pixel clock,
horizontal timing (in units of 8 pixel clocks), vertical timing, full-screen
active window, memory clear, display on/off, GPIO enable, backlight PWM
configuration and full brightness. -/
def init_writes (s : DevState) (start_on : Bool)
    (pixclk hsync_nondisp hsync_start hsync_pw vsync_nondisp vsync_start vsync_pw : Nat) :
    List BusEvent :=
  write_reg PLLC1 (PLLC1_PLLDIV1 + 11) ++ write_reg PLLC2 PLLC2_DIV4
    ++ write_reg SYSR (SYSR_16BPP ||| SYSR_MCU8) ++ write_reg PCSR pixclk
    ++ write_reg HDWR (s.width / 8 - 1) ++ write_reg HNDFTR HNDFTR_DE_HIGH
    ++ write_reg HNDR ((hsync_nondisp - 2) / 8) ++ write_reg HSTR (hsync_start / 8 - 1)
    ++ write_reg HPWR (HPWR_LOW + hsync_pw / 8 - 1)
    ++ write_reg16 VDHR0 (s.height - 1 + s.vert_offset)
    ++ write_reg16 VNDR0 (vsync_nondisp - 1)
    ++ write_reg16 VSTR0 (vsync_start - 1)
    ++ write_reg VPWR (VPWR_LOW + vsync_pw - 1)
    ++ write_reg16 HSAW0 0 ++ write_reg16 HEAW0 (s.width - 1)
    ++ write_reg16 VSAW0 s.vert_offset
    ++ write_reg16 VEAW0 (s.height - 1 + s.vert_offset)
    ++ write_reg MCLR (MCLR_START ||| MCLR_FULL)
    ++ write_reg PWRR (PWRR_NORMAL ||| (if start_on then PWRR_DISPON else PWRR_DISPOFF))
    ++ write_reg GPIOX 1
    ++ write_reg P1CR (P1CR_ENABLE ||| (PWM_CLK_DIV1024 &&& 0xF))
    ++ write_reg P1DCR 255

/-- Method `init`: set the vertical offset for the 480x82 panel, resolve the
geometry profile from (width, height) — 800x480 or 480x(272|128|82), the 480
branch also caching `_adc_clk = TPCR0_ADCCLK_DIV4` — then emit the register
writes.  Any other geometry raises `ValueError` ("An invalid display size was
specified.") before any register write reaches the chip: the error carries no
bus events, mirroring that the raise precedes `pllinit` and every
`_write_reg` in the source. -/
def init (s : DevState) (start_on : Bool) : Except Unit (List BusEvent × DevState) :=
  let s1 := { s with vert_offset := if s.width = 480 ∧ s.height = 82 then 190
                                    else s.vert_offset }
  if s1.width = 800 ∧ s1.height = 480 then
    Except.ok (init_writes s1 start_on (PCSR_PDATL ||| PCSR_2CLK) 26 32 96 32 23 2, s1)
  else if s1.width = 480 ∧ (s1.height = 272 ∨ s1.height = 128 ∨ s1.height = 82) then
    let s2 := { s1 with adc_clk := some TPCR0_ADCCLK_DIV4 }
    Except.ok (init_writes s2 start_on (PCSR_PDATL ||| PCSR_4CLK) 10 8 48 3 8 10, s2)
  else
    Except.error ()

/-- The four active-window register values and effective width/height computed
by `RA8875Display.set_window` (lines 654-665): clamp the width when
`x1 + width >= self.width` to `self.width - x1` (likewise the height), then
HSAW gets `x1`, HEAW gets `x1 + width`, VSAW gets `y1`, VEAW gets
`y1 + height`.  Int mirrors Python's signed arbitrary-precision arithmetic. -/
structure WindowRegs where
  hsaw : Int
  heaw : Int
  vsaw : Int
  veaw : Int
  weff : Int
  heff : Int
deriving DecidableEq, Repr

def set_window_regs (width height x1 y1 w h : Int) : WindowRegs :=
  let w1 := if x1 + w ≥ width then width - x1 else w
  let h1 := if y1 + h ≥ height then height - y1 else h
  { hsaw := x1, heaw := x1 + w1, vsaw := y1, veaw := y1 + h1, weff := w1, heff := h1 }

/-- Completion poller `_wait_poll`, one loop iteration at a time.  `reads i`
is the byte the device returns at the i-th poll; `1 + delays i` is the
wall-clock milliseconds elapsing during iteration i (at least 1 ms, from
`time.sleep(0.001)`); `t` is the elapsed time at the iteration's start.  The
masked-bit check comes before the 20 ms timeout check, exactly as in the
source loop. -/
def wait_poll_go (reads delays : Nat → Nat) (mask : Nat) (i t : Nat) : Bool :=
  if reads i &&& mask = 0 then true
  else if 20 ≤ t + 1 + delays i then false
  else wait_poll_go reads delays mask (i + 1) (t + 1 + delays i)
termination_by 20 - t
decreasing_by omega

/-- Method `_wait_poll(register, mask)`: start the clock at 0 and poll.  This
is a total Lean function: the loop provably terminates for every read
sequence and every timing. -/
def wait_poll (reads delays : Nat → Nat) (mask : Nat) : Bool :=
  wait_poll_go reads delays mask 0 0

/-- Elapsed wall-clock milliseconds after `k` poll iterations. -/
def poll_elapsed (delays : Nat → Nat) : Nat → Nat
  | 0 => 0
  | k + 1 => poll_elapsed delays k + 1 + delays k

/-- Function `convert_555_to_565` (identical in `ra8875.py` and in
`BMP.convert_555_to_565` in `bmp.py`): expand each 5-bit channel of the
555 word to 8/7/8 bits, then shift those already-expanded values by 11/5/0. -/
def convert_555_to_565 (color_555 : Nat) : Nat :=
  let r := (color_555 &&& 0x1F) <<< 3
  let g := ((color_555 >>> 5) &&& 0x1F) <<< 2
  let b := ((color_555 >>> 10) &&& 0x1F) <<< 3
  (r <<< 11) ||| (g <<< 5) ||| b

/-- Data writes addressed at the register `tgt`: fold over a bus trace
tracking the currently command-selected register, counting the data-write
events that land in `tgt`. -/
def count_writes_to : Option Nat → List BusEvent → Nat → Nat
  | _, [], _ => 0
  | _, BusEvent.cmdWrite c :: rest, tgt => count_writes_to (some c) rest tgt
  | sel, BusEvent.dataWrite _ :: rest, tgt =>
      (if sel = some tgt then 1 else 0) + count_writes_to sel rest tgt
  | sel, BusEvent.dataRead _ :: rest, tgt => count_writes_to sel rest tgt

/-! Claim theorems. -/

/-- Claim C6 (code-bug evidence): `convert_555_to_565` does not produce a
16-bit 565 value as its docstring states.  At the 555 input `0x001F` (one
5-bit channel fully set) the result is `0x7C000`, which exceeds `0xFFFF`:
the already-8-bit-expanded channel is shifted a further 11 places, landing
in bits 14-18 instead of the 565 field at bits 11-15. -/
theorem convert_555_to_565_overflow :
    convert_555_to_565 0x1F = 0x7C000 ∧ 0xFFFF < convert_555_to_565 0x1F := by
  decide

/-- Claim C8: for every register address `addr` (8-bit, with a valid paired
high register at `addr + 1`) and every value `v`, `_write_reg16` emits
exactly command-select `addr`, data-write of the low byte `v % 256`,
command-select `addr + 1`, data-write of the high byte `(v >>> 8) % 256`
(for nonnegative ints, `x & 0xFF = x % 256`). -/
theorem write_reg16_sequence (addr v : Nat) (h : addr + 1 < 256) :
    write_reg16 addr v =
      [BusEvent.cmdWrite addr, BusEvent.dataWrite (v % 256),
       BusEvent.cmdWrite (addr + 1), BusEvent.dataWrite ((v >>> 8) % 256)] := by
  have h1 : addr % 256 = addr := Nat.mod_eq_of_lt (by omega)
  have h2 : (addr + 1) % 256 = addr + 1 := Nat.mod_eq_of_lt h
  simp [write_reg16, write_cmd, write_data, h1, h2]

/-- Witness for C8 at `addr = VDHR0 = 0x19`, `v = 0x01F5`. -/
theorem write_reg16_sequence_witness :
    write_reg16 0x19 0x01F5 =
      [BusEvent.cmdWrite 0x19, BusEvent.dataWrite 0xF5,
       BusEvent.cmdWrite 0x1A, BusEvent.dataWrite 0x01] := by
  rw [write_reg16_sequence 0x19 0x01F5 (by decide)]
  decide

/-- Claim C2: for 8-bit high-register bytes `xh`, `yh` and shared low byte
`t`, `touch_read` returns `x = (xh << 2) | (t & 0x03)` and
`y = (yh << 2) | ((t >> 2) & 0x03)`, and after the three reads it writes the
touch-interrupt bit to the interrupt-status register INTC2 to clear the
latched flag. -/
theorem touch_read_decodes (env : Nat → Nat) (xh yh t : Nat)
    (hx : env TPXH = xh) (hy : env TPYH = yh) (ht : env TPXYL = t)
    (hx8 : xh < 256) (hy8 : yh < 256) (ht8 : t < 256) :
    touch_read env =
      (((xh <<< 2) ||| (t &&& 0x03), (yh <<< 2) ||| ((t >>> 2) &&& 0x03)),
       [BusEvent.cmdWrite TPXH, BusEvent.dataRead xh,
        BusEvent.cmdWrite TPYH, BusEvent.dataRead yh,
        BusEvent.cmdWrite TPXYL, BusEvent.dataRead t,
        BusEvent.cmdWrite INTC2, BusEvent.dataWrite INTC2_TP]) := by
  simp only [TPXH, TPYH, TPXYL] at hx hy ht
  simp [touch_read, read_reg, read_byte, write_reg, write_cmd, write_data,
    hx, hy, ht, Nat.mod_eq_of_lt hx8, Nat.mod_eq_of_lt hy8, Nat.mod_eq_of_lt ht8,
    TPXH, TPYH, TPXYL, INTC2, INTC2_TP]

/-- Witness for C2 at `xh = 0x12`, `yh = 0x34`, `t = 0b10010110`: the decoded
sample is `x = 0x4A`, `y = 0xD1`. -/
theorem touch_read_decodes_witness :
    touch_read (fun c => if c = 0x72 then 0x12 else if c = 0x73 then 0x34
        else if c = 0x74 then 0x96 else 0) =
      ((0x4A, 0xD1),
       [BusEvent.cmdWrite 0x72, BusEvent.dataRead 0x12,
        BusEvent.cmdWrite 0x73, BusEvent.dataRead 0x34,
        BusEvent.cmdWrite 0x74, BusEvent.dataRead 0x96,
        BusEvent.cmdWrite 0xF1, BusEvent.dataWrite 0x04]) := by
  rw [touch_read_decodes (fun c => if c = 0x72 then 0x12 else if c = 0x73 then 0x34
        else if c = 0x74 then 0x96 else 0) 0x12 0x34 0x96
      (by decide) (by decide) (by decide) (by decide) (by decide) (by decide)]
  decide

/-- Claim C10: the constructor silently stores height 82 exactly when the
requested geometry is 480x80 (no other pair is remapped, and the width is
never remapped), and a subsequent `init` on the resulting 480x82 handle sets
the vertical pixel offset to 190. -/
theorem ctor_height_remap (env : Nat → Nat) (w h : Nat) (b : Bool) (s : DevState)
    (hw : s.width = 480) (hh : s.height = 82) :
    (device_ctor env w h).height = (if w = 480 ∧ h = 80 then 82 else h) ∧
    (device_ctor env w h).width = w ∧
    Except.map (fun p => p.2.vert_offset) (init s b) = Except.ok 190 := by
  refine ⟨rfl, rfl, ?_⟩
  simp [init, hw, hh, Except.map]

/-- Witness for C10: constructing at 480x80 then running `init` yields a
vertical offset of 190. -/
theorem ctor_height_remap_witness :
    Except.map (fun p => p.2.vert_offset)
      (init (device_ctor (fun _ => 0) 480 80) true) = Except.ok 190 :=
  (ctor_height_remap (fun _ => 0) 480 80 true (device_ctor (fun _ => 0) 480 80)
    (by decide) (by decide)).2.2

/-- Claim C9: when the chip identification register 0 reads 0x75, the
constructor returns early and `_adc_clk` is never assigned; `init` on an
800x480 device leaves it unassigned (only the 480-wide branch assigns it);
and `touch_enable(True)` then fails with an attribute access error — the
model's error case, which carries no bus events, mirroring that the
`AttributeError` fires while evaluating the TPCR0 argument, before any
write reaches the chip. -/
theorem ctor_skips_adc_clk (env : Nat → Nat) (h : read_byte env 0 = 0x75) :
    (device_ctor env 800 480).adc_clk = none ∧
    Except.map (fun p => p.2.adc_clk) (init (device_ctor env 800 480) true) =
      Except.ok none ∧
    touch_enable env true (device_ctor env 800 480) = Except.error () := by
  refine ⟨?_, ?_, ?_⟩ <;>
    simp [device_ctor, init, touch_enable, h, Except.map]

/-- Witness for C9 with a device whose register 0 reads 0x75. -/
theorem ctor_skips_adc_clk_witness :
    touch_enable (fun _ => 0x75) true (device_ctor (fun _ => 0x75) 800 480) =
      Except.error () :=
  (ctor_skips_adc_clk (fun _ => 0x75) (by decide)).2.2

/-- Claim C5: `init` fails with the configuration error (`ValueError` in the
source) exactly on geometries other than 800x480 and 480x(272|128|82), and
the error is raised before any register write reaches the chip — the error
carries no bus events, mirroring that the raise precedes `pllinit` and every
`_write_reg` in the source; every supported geometry proceeds without
raising. -/
theorem init_geometry_guard (s : DevState) (b : Bool) :
    (((s.width = 800 ∧ s.height = 480) ∨
        (s.width = 480 ∧ (s.height = 272 ∨ s.height = 128 ∨ s.height = 82))) →
      (init s b).isOk = true) ∧
    (¬((s.width = 800 ∧ s.height = 480) ∨
        (s.width = 480 ∧ (s.height = 272 ∨ s.height = 128 ∨ s.height = 82))) →
      init s b = Except.error ()) := by
  constructor
  · rintro (⟨h1, h2⟩ | ⟨h1, h2 | h2 | h2⟩) <;>
      simp [init, h1, h2, Except.isOk, Except.toBool]
  · intro hnot
    have hA : ¬(s.width = 800 ∧ s.height = 480) := fun hx => hnot (Or.inl hx)
    have hB : ¬(s.width = 480 ∧ (s.height = 272 ∨ s.height = 128 ∨ s.height = 82)) :=
      fun hx => hnot (Or.inr hx)
    simp [init, hA, hB]

/-- Witness for C5: 800x480 initializes without raising; 640x480 fails with
the configuration error. -/
theorem init_geometry_guard_witness :
    (init ⟨800, 480, 0, Mode.unknown, none, none⟩ true).isOk = true ∧
    init ⟨640, 480, 0, Mode.unknown, none, none⟩ true = Except.error () :=
  ⟨(init_geometry_guard ⟨800, 480, 0, Mode.unknown, none, none⟩ true).1
      (Or.inl ⟨rfl, rfl⟩),
    (init_geometry_guard ⟨640, 480, 0, Mode.unknown, none, none⟩ true).2 (by decide)⟩

/-- Claim C4 counterexample: with `x1 = 750`, `width = 100` on an 800-wide
panel, the clamp does give effective width 50, but the horizontal end-point
active-window register receives `x1 + 50 = 800`, which is not an in-bounds
coordinate (panel columns run 0..799; `init` programs the full-screen end
register as `width - 1 = 799`).  So the written registers do not cover only
in-bounds coordinates, refuting the claim as stated. -/
theorem set_window_bounds_counterexample :
    (set_window_regs 800 480 750 0 100 100).weff = 50 ∧
    (set_window_regs 800 480 750 0 100 100).heaw = 800 ∧
    ¬((set_window_regs 800 480 750 0 100 100).heaw ≤ 800 - 1) := by
  decide

/-- Claim C4 (amended): `set_window` clamps the effective width to
`panel_width - x1` whenever `x1 + width` reaches or exceeds the panel width
(likewise the height), and leaves it unchanged otherwise; the start registers
receive `x1` and `y1` unchecked and the end registers receive
`x1 + weff`/`y1 + heff`.  The end-register values never exceed the panel
width/height, but when the clamp fires they equal exactly the panel
width/height — one past the last in-bounds coordinate — so the four registers
do not cover only in-bounds coordinates.  In particular `x1 = 750`,
`width = 100` on an 800-wide panel yields effective width 50. -/
theorem set_window_clamps (W H x1 y1 w h : Int) :
    (x1 + w ≥ W → (set_window_regs W H x1 y1 w h).weff = W - x1) ∧
    (y1 + h ≥ H → (set_window_regs W H x1 y1 w h).heff = H - y1) ∧
    (x1 + w < W → (set_window_regs W H x1 y1 w h).weff = w) ∧
    (y1 + h < H → (set_window_regs W H x1 y1 w h).heff = h) ∧
    (set_window_regs W H x1 y1 w h).hsaw = x1 ∧
    (set_window_regs W H x1 y1 w h).vsaw = y1 ∧
    (set_window_regs W H x1 y1 w h).heaw = x1 + (set_window_regs W H x1 y1 w h).weff ∧
    (set_window_regs W H x1 y1 w h).veaw = y1 + (set_window_regs W H x1 y1 w h).heff ∧
    (set_window_regs W H x1 y1 w h).heaw ≤ W ∧
    (set_window_regs W H x1 y1 w h).veaw ≤ H ∧
    (x1 + w ≥ W → (set_window_regs W H x1 y1 w h).heaw = W) ∧
    (y1 + h ≥ H → (set_window_regs W H x1 y1 w h).veaw = H) := by
  simp only [set_window_regs]
  split_ifs <;> refine ⟨?_, ?_, ?_, ?_, ?_, ?_, ?_, ?_, ?_, ?_, ?_, ?_⟩ <;>
    intros <;> first | rfl | omega | trivial

/-- Witness for C4 (amended) at the spec's scenario: effective width
`800 - 750 = 50`. -/
theorem set_window_clamps_witness :
    (set_window_regs 800 480 750 0 100 100).weff = 800 - 750 :=
  (set_window_clamps 800 480 750 0 100 100).1 (by decide)

/-- Claim C3: self-transitions of the mode state machine issue no register
access at all — requesting the cached mode returns the state unchanged with
an empty bus trace — so two successive requests of the same mode perform the
work of the first call only, with exactly one data write landing in the
mode-switch register MWCR0 across both calls (graphics or text). -/
theorem mode_transitions_idempotent (env : Nat → Nat) (s : DevState) :
    (s.mode = Mode.gfx → gfx_mode env s = (s, [])) ∧
    (s.mode = Mode.txt → txt_mode env s = (s, [])) ∧
    gfx_mode env (gfx_mode env s).1 = ((gfx_mode env s).1, []) ∧
    txt_mode env (txt_mode env s).1 = ((txt_mode env s).1, []) ∧
    (s.mode ≠ Mode.gfx →
      count_writes_to none ((gfx_mode env s).2 ++ (gfx_mode env (gfx_mode env s).1).2)
        MWCR0 = 1) ∧
    (s.mode ≠ Mode.txt →
      count_writes_to none ((txt_mode env s).2 ++ (txt_mode env (txt_mode env s).1).2)
        MWCR0 = 1) := by
  refine ⟨?_, ?_, ?_, ?_, ?_, ?_⟩
  · intro h; simp [gfx_mode, h]
  · intro h; simp [txt_mode, h]
  · by_cases h : s.mode = Mode.gfx <;> simp [gfx_mode, h]
  · by_cases h : s.mode = Mode.txt <;> simp [txt_mode, h]
  · intro h
    simp [gfx_mode, h, count_writes_to, read_reg, read_byte, write_data, write_cmd,
      MWCR0]
  · intro h
    simp [txt_mode, h, count_writes_to, read_reg, read_byte, write_data, write_cmd,
      MWCR0, FNCR0, MWCR0_TXTMODE]

/-- Witness for C3: from unknown mode, two successive graphics-mode requests
issue exactly one write to MWCR0. -/
theorem mode_transitions_idempotent_witness :
    count_writes_to none
      ((gfx_mode (fun _ => 0) ⟨800, 480, 0, Mode.unknown, none, none⟩).2 ++
        (gfx_mode (fun _ => 0)
          (gfx_mode (fun _ => 0) ⟨800, 480, 0, Mode.unknown, none, none⟩).1).2)
      MWCR0 = 1 :=
  (mode_transitions_idempotent (fun _ => 0)
    ⟨800, 480, 0, Mode.unknown, none, none⟩).2.2.2.2.1 (by decide)

/-- Claim C7 counterexample: with no interrupt pin configured, `touched` does
not force a transition to Graphics mode — the cached mode stays `unknown`
after the call — refuting "Every call to touched() forces a transition to
Graphics mode before reading touch status"; and with a pin configured and
reading not-asserted from unknown mode, `touched` returns false but its bus
trace is non-empty (the forced mode switch itself is bus traffic), refuting
"returns false without performing any bus transaction". -/
theorem touched_claim_counterexample :
    (touched (fun _ => 0) ⟨800, 480, 0, Mode.unknown, none, none⟩).2.1.mode ≠
      Mode.gfx ∧
    (touched (fun _ => 0) ⟨800, 480, 0, Mode.unknown, some true, none⟩).1 = false ∧
    (touched (fun _ => 0) ⟨800, 480, 0, Mode.unknown, some true, none⟩).2.2 ≠ [] := by
  decide

/-- Claim C7 (amended): only when an interrupt pin is configured does
`touched` force a transition to Graphics mode (itself bus traffic when the
cached mode differs); a pin reading not-asserted then short-circuits to
false without reading the interrupt-status register, and otherwise the
touch-interrupt bit of INTC2 is returned (nonzero means touched).  With no
pin configured there is no mode transition and the INTC2 bit is returned
directly. -/
theorem touched_behavior (env : Nat → Nat) (s : DevState) :
    (s.tpin = none →
      touched env s = (((read_byte env INTC2 &&& INTC2_TP) != 0), s,
        [BusEvent.cmdWrite INTC2, BusEvent.dataRead (read_byte env INTC2)])) ∧
    (s.tpin = some true →
      touched env s = (false, (gfx_mode env s).1, (gfx_mode env s).2)) ∧
    (s.tpin = some false →
      touched env s = (((read_byte env INTC2 &&& INTC2_TP) != 0), (gfx_mode env s).1,
        (gfx_mode env s).2 ++
          [BusEvent.cmdWrite INTC2, BusEvent.dataRead (read_byte env INTC2)])) ∧
    (∀ pv, s.tpin = some pv → ((touched env s).2.1).mode = Mode.gfx) := by
  refine ⟨?_, ?_, ?_, ?_⟩
  · intro h; simp [touched, h, read_reg, read_byte, INTC2]
  · intro h; simp [touched, h]
  · intro h; simp [touched, h, read_reg, read_byte, INTC2]
  · intro pv h
    by_cases hm : s.mode = Mode.gfx <;> cases pv <;>
      simp [touched, h, gfx_mode, hm]

/-- Witness for C7 (amended): with no pin configured and every register
reading 0, `touched` leaves the state alone and reads INTC2. -/
theorem touched_behavior_witness :
    touched (fun _ => 0) ⟨800, 480, 0, Mode.unknown, none, none⟩ =
      (((read_byte (fun _ => 0) INTC2 &&& INTC2_TP) != 0),
        ⟨800, 480, 0, Mode.unknown, none, none⟩,
        [BusEvent.cmdWrite INTC2, BusEvent.dataRead (read_byte (fun _ => 0) INTC2)]) :=
  (touched_behavior (fun _ => 0) ⟨800, 480, 0, Mode.unknown, none, none⟩).1 rfl

/-- If every poll reads the busy bit set, the loop returns false once the
elapsed time reaches 20 ms — which it always does, since every iteration
advances the clock by at least 1 ms. -/
theorem wait_poll_go_false (reads delays : Nat → Nat) (mask : Nat)
    (hb : ∀ j, reads j &&& mask ≠ 0) :
    ∀ n i t, 20 - t ≤ n → wait_poll_go reads delays mask i t = false := by
  intro n
  induction n with
  | zero =>
    intro i t ht
    rw [wait_poll_go, if_neg (hb i), if_pos (by omega)]
  | succ k ih =>
    intro i t ht
    rw [wait_poll_go, if_neg (hb i)]
    by_cases h20 : 20 ≤ t + 1 + delays i
    · rw [if_pos h20]
    · rw [if_neg h20]
      exact ih (i + 1) (t + 1 + delays i) (by omega)

/-- A poll whose masked read is zero returns true at once, whatever the
elapsed time: the success check precedes the timeout check. -/
theorem wait_poll_go_success (reads delays : Nat → Nat) (mask i t : Nat)
    (h : reads i &&& mask = 0) : wait_poll_go reads delays mask i t = true := by
  rw [wait_poll_go, if_pos h]

/-- While every earlier read was busy and every earlier timeout check was
under 20 ms, the loop reaches iteration `i` with elapsed time
`poll_elapsed delays i`. -/
theorem wait_poll_go_advance (reads delays : Nat → Nat) (mask : Nat) :
    ∀ i, (∀ j, j < i → reads j &&& mask ≠ 0) →
      (∀ j, j < i → poll_elapsed delays (j + 1) < 20) →
      wait_poll_go reads delays mask 0 0 =
        wait_poll_go reads delays mask i (poll_elapsed delays i) := by
  intro i
  induction i with
  | zero => intro _ _; rfl
  | succ k ih =>
    intro h1 h2
    rw [ih (fun j hj => h1 j (Nat.lt_succ_of_lt hj))
        (fun j hj => h2 j (Nat.lt_succ_of_lt hj))]
    have hlt : poll_elapsed delays k + 1 + delays k < 20 := by
      have hk := h2 k (Nat.lt_succ_self k)
      simpa [poll_elapsed] using hk
    rw [wait_poll_go, if_neg (h1 k (Nat.lt_succ_self k)), if_neg (by omega)]
    rfl

/-- Claim C1: `_wait_poll` is a total function (the recursion is justified by
the elapsed-time measure, so the loop can never hang, whatever bytes the
device returns and however long each iteration takes).  It returns true as
soon as a read yields `(value & mask) == 0` — at the first such iteration,
provided every earlier read was busy and no earlier timeout check had
reached 20 ms — and it returns false when every read reports the busy bit
set indefinitely, because each iteration advances the wall clock by at least
the 1 ms sleep and the 20 ms timeout check then fires. -/
theorem wait_poll_spec (reads delays : Nat → Nat) (mask : Nat) :
    (∀ i, reads i &&& mask = 0 →
      (∀ j, j < i → reads j &&& mask ≠ 0) →
      (∀ j, j < i → poll_elapsed delays (j + 1) < 20) →
      wait_poll reads delays mask = true) ∧
    ((∀ i, reads i &&& mask ≠ 0) → wait_poll reads delays mask = false) := by
  constructor
  · intro i hi h1 h2
    unfold wait_poll
    rw [wait_poll_go_advance reads delays mask i h1 h2]
    exact wait_poll_go_success reads delays mask i _ hi
  · intro hb
    exact wait_poll_go_false reads delays mask hb 20 0 0 (by omega)

/-- Witness for C1: a device reporting idle at the first read makes the poll
succeed; a device reporting the busy bit forever makes it time out and
return false rather than hang. -/
theorem wait_poll_spec_witness :
    wait_poll (fun _ => 0) (fun _ => 0) 0x80 = true ∧
    wait_poll (fun _ => 0x80) (fun _ => 0) 0x80 = false :=
  ⟨(wait_poll_spec (fun _ => 0) (fun _ => 0) 0x80).1 0 (by decide)
      (fun j hj => absurd hj (Nat.not_lt_zero j))
      (fun j hj => absurd hj (Nat.not_lt_zero j)),
    (wait_poll_spec (fun _ => 0x80) (fun _ => 0) 0x80).2 (fun i => by decide)⟩

end RA8875
